import Mathlib

/-!
Verification of the response-normalization routine of smart-tax-filer
(`src/agent.py`, `process_receipt`, lines 86-173, plus `save_to_csv` of
`src/app.py`).  The Python code is shallowly embedded: strings are `List Char`
/ `String`, the specific regular expressions of the heuristic extraction are
implemented directly with Python `re.search` leftmost-match and greedy /
backtracking semantics, Python `float` values are modelled as exact rationals
(`ℚ`; IEEE rounding is outside the model), and raised exceptions are modelled
as `Except` errors.  Character classes (`\s`, `str.strip()`) are modelled over
the ASCII whitespace characters; all inputs appearing in theorems are ASCII.
-/

/-- ASCII whitespace, modelling Python's `\s` class and `str.strip()`. -/
def pyWs (c : Char) : Bool :=
  c == ' ' || c == '\t' || c == '\n' || c == '\r' || c == '\x0b' || c == '\x0c'

/-- Python `str.strip()`: drop leading and trailing whitespace. -/
def pyStrip (l : List Char) : List Char :=
  ((l.dropWhile pyWs).reverse.dropWhile pyWs).reverse

/-- Python `str.strip('*')`: drop leading and trailing asterisks. -/
def stripStars (l : List Char) : List Char :=
  ((l.dropWhile (fun c => c == '*')).reverse.dropWhile (fun c => c == '*')).reverse

/-- The `.strip().strip('*').strip()` chain applied to every captured group
(`src/agent.py` lines 108, 112, 116, 120, 127). -/
def cleanLabelVal (g : List Char) : List Char :=
  pyStrip (stripStars (pyStrip g))

/-- Drop one leading `**` if present. -/
def dropTwoStars : List Char → List Char
  | '*' :: '*' :: t => t
  | l => l

/-- `re.sub(r'^\*\*|\*\*$', '', s)` on a string with no trailing newline:
remove a leading and a trailing `**` (lines 135, 137, 139, 141, 145). -/
def removeBold (l : List Char) : List Char :=
  (dropTwoStars (dropTwoStars l).reverse).reverse

/-- `re.sub(r'\n+', ' ', s)`: each run of newlines becomes one space
(line 143). The flag records whether the previous character was a newline. -/
def collapseNlAux : Bool → List Char → List Char
  | _, [] => []
  | prev, c :: t =>
    if c == '\n' then
      if prev then collapseNlAux true t else ' ' :: collapseNlAux true t
    else c :: collapseNlAux false t

/-- `re.sub(r'\n+', ' ', s)` (line 143). -/
def collapseNl (l : List Char) : List Char := collapseNlAux false l

/-- Emit a newline run of length `n` after `re.sub(r'\n{3,}', '\n\n', s)`. -/
def emitNl (n : Nat) : List Char :=
  if n ≥ 3 then ['\n', '\n'] else List.replicate n '\n'

/-- Helper for `re.sub(r'\n{3,}', '\n\n', s)`: `n` counts the current run of
newlines. -/
def collapse3Aux : Nat → List Char → List Char
  | n, [] => emitNl n
  | n, c :: t =>
    if c == '\n' then collapse3Aux (n + 1) t
    else emitNl n ++ c :: collapse3Aux 0 t

/-- `re.sub(r'\n{3,}', '\n\n', s)`: runs of three or more newlines collapse to
exactly two (line 147). -/
def collapse3 (l : List Char) : List Char := collapse3Aux 0 l

/-- The character class `[:\*\s]` separating a label from its value. -/
def sepClass (c : Char) : Bool := c == ':' || c == '*' || pyWs c

/-- First character allowed in the captured group: `[^\n]` for the multi-line
patterns (description, reasoning), `[^\n\-]` for the single-line ones. -/
def groupStartOk (ml : Bool) (c : Char) : Bool :=
  if ml then c != '\n' else c != '\n' && c != '-'

/-- The captured group starting at `u`, whose head is a valid group start.
Single-line: `([^\n\-]+)` — the maximal run of characters that are neither
newline nor hyphen.  Multi-line: `([^\n]+(?:\n[^-]+)*)` — the rest of the
line; then, if the next line does not begin with a hyphen, a newline plus
everything up to the first hyphen (the starred part matches at most once
because `[^-]+` is greedy and ends at a hyphen or at the end of input). -/
def captureFrom (ml : Bool) (u : List Char) : List Char :=
  if ml then
    let part1 := u.takeWhile (fun c => c != '\n')
    match u.drop part1.length with
    | '\n' :: c :: rest =>
      if c != '-' then part1 ++ '\n' :: (c :: rest).takeWhile (fun x => x != '-')
      else part1
    | _ => part1
  else u.takeWhile (fun c => c != '\n' && c != '-')

/-- Backtracking of the greedy `[:\*\s]+` run when no group can start right
after it: the group instead starts at the last run character that is not a
newline, provided at least one run character is left before it. -/
def backtrackCapture (ml : Bool) (run after : List Char) : Option (List Char) :=
  let trimmed := (run.reverse.dropWhile (fun c => c == '\n')).reverse
  if trimmed.length ≥ 2 then
    some (captureFrom ml (run.drop (trimmed.length - 1) ++ after))
  else none

/-- Match `[:\*\s]+(group)` at the text `t` that directly follows a label
occurrence, returning the captured group. -/
def matchAfterLabel (ml : Bool) (t : List Char) : Option (List Char) :=
  let run := t.takeWhile sepClass
  let after := t.drop run.length
  if run.isEmpty then none
  else
    match after with
    | c :: _ =>
      if groupStartOk ml c then some (captureFrom ml after)
      else backtrackCapture ml run after
    | [] => backtrackCapture ml run after

/-- Case-insensitive prefix test (ASCII, modelling `re.IGNORECASE`). -/
def startsWithCI : List Char → List Char → Bool
  | [], _ => true
  | _ :: _, [] => false
  | p :: ps, c :: cs => (p.toLower == c.toLower) && startsWithCI ps cs

/-- Try each label alternative, in the alternation order of the pattern, at
the current position. -/
def matchLabelAt (labels : List String) (ml : Bool) (l : List Char) : Option (List Char) :=
  labels.findSome? fun lab =>
    if startsWithCI lab.data l then matchAfterLabel ml (l.drop lab.data.length)
    else none

/-- `re.search` for a label pattern: scan positions left to right and return
the group of the leftmost match. -/
def searchLabel (labels : List String) (ml : Bool) : List Char → Option (List Char)
  | [] => none
  | c :: t =>
    match matchLabelAt labels ml (c :: t) with
    | some g => some g
    | none => searchLabel labels ml t

/-- Characters matched by `[\d,]`. -/
def amtClass (c : Char) : Bool := c.isDigit || c == ','

/-- Match `\$\s*([\d,]+\.?\d*)` anchored at the current position and return
the captured token. -/
def matchAmountAt : List Char → Option (List Char)
  | '$' :: t =>
    let t1 := t.dropWhile pyWs
    let run := t1.takeWhile amtClass
    if run.isEmpty then none
    else
      match t1.drop run.length with
      | '.' :: t2 => some (run ++ '.' :: t2.takeWhile Char.isDigit)
      | _ => some run
  | _ => none

/-- `re.search(r'\$\s*([\d,]+\.?\d*)', output)` (line 103): group of the
leftmost match. -/
def searchAmount : List Char → Option (List Char)
  | [] => none
  | c :: t =>
    match matchAmountAt (c :: t) with
    | some g => some g
    | none => searchAmount t

/-- Value of a list of decimal digits. -/
def digitsVal (l : List Char) : Nat :=
  l.foldl (fun a c => 10 * a + (c.toNat - 48)) 0

/-- Exact value of a comma-free token `digits [. digits]` as a rational
(models the value produced by Python `float`; IEEE rounding is outside the
model). -/
def ratOfClean (l : List Char) : ℚ :=
  let ip := l.takeWhile (fun c => c != '.')
  let fp := (l.drop ip.length).drop 1
  mkRat (digitsVal ip * 10 ^ fp.length + digitsVal fp) (10 ^ fp.length)

/-- Python `float` applied to a token drawn from the amount regex with commas
removed: such a token consists of digits with at most one dot, and the
conversion succeeds exactly when at least one digit is present (`float('')`
and `float('.')` raise `ValueError`). -/
def pyFloatConv (l : List Char) : Option ℚ :=
  if l.any Char.isDigit then some (ratOfClean l) else none

/-- The exceptions the normalization code can raise. -/
inductive PyExn where
  | valueError (msg : String)
  | typeError (msg : String)
  | validationError (msg : String)
deriving Repr, DecidableEq

/-- The pydantic record of `src/agent.py` lines 22-28. -/
structure ReceiptData where
  amount : ℚ
  category : String
  merchant : Option String := none
  date : Option String := none
  description : Option String := none
  audit_reasoning : Option String := none
deriving Repr, DecidableEq

/-- Line 104: `float(amount_match.group(1).replace(',', '')) if amount_match
else 0.0`, with the `ValueError` that `float` raises on a digit-free token. -/
def pyAmount : Option (List Char) → Except PyExn ℚ
  | none => Except.ok 0
  | some tok =>
    match pyFloatConv (tok.filter (fun c => c != ',')) with
    | some q => Except.ok q
    | none =>
      Except.error (PyExn.valueError
        ("could not convert string to float: " ++ (tok.filter (fun c => c != ',')).asString))

/-- Post-processing of category / merchant / date (lines 134-139):
`re.sub(r'^\*\*|\*\*$', '', v).strip()`, applied only to truthy values. -/
def postField (v : List Char) : List Char :=
  if v.isEmpty then v else pyStrip (removeBold v)

/-- Post-processing of the description (lines 140-143): bold-marker removal,
strip, then newline runs to single spaces, strip. -/
def postDescr (v : List Char) : List Char :=
  if v.isEmpty then v else pyStrip (collapseNl (pyStrip (removeBold v)))

/-- Post-processing of the audit reasoning (lines 144-147): bold-marker
removal, strip, then runs of three or more newlines to two, strip. -/
def postProcessReasoning (v : List Char) : List Char :=
  if v.isEmpty then v else pyStrip (collapse3 (pyStrip (removeBold v)))

/-- Lines 107-108 and 134-135: the category field. -/
def categoryField (cs : List Char) : List Char :=
  postField (match searchLabel ["Category"] false cs with
    | some g => cleanLabelVal g
    | none => "Unknown".data)

/-- Lines 111-116 and 136-139: merchant / date, for the given label. -/
def optField (cs : List Char) (label : String) : Option (List Char) :=
  (searchLabel [label] false cs).map fun g => postField (cleanLabelVal g)

/-- Lines 119-120 and 140-143: the description field. -/
def descrField (cs : List Char) : Option (List Char) :=
  (searchLabel ["Description"] true cs).map fun g => postDescr (cleanLabelVal g)

/-- The alternation of the reasoning pattern (line 124). -/
def reasonLabels : List String :=
  ["Audit Reasoning", "Reasoning", "Justification", "Rationale"]

/-- Lines 122-131 and 144-147: the audit reasoning; when no label matched or
the captured value strips to the empty string, the whole trimmed text is used
instead. -/
def reasonField (cs : List Char) : List Char :=
  let r0 := match searchLabel reasonLabels true cs with
    | some g => cleanLabelVal g
    | none => []
  let r1 := if r0.isEmpty then pyStrip cs else r0
  postProcessReasoning r1

/-- Lines 106-158: the record built by the heuristic extraction from the raw
text, given the already-converted amount. -/
def buildRecord (a : ℚ) (cs : List Char) : ReceiptData :=
  ⟨a, (categoryField cs).asString,
    (optField cs "Merchant").map List.asString,
    (optField cs "Date").map List.asString,
    (descrField cs).map List.asString,
    some (reasonField cs).asString⟩

/-- Lines 100-158: the heuristic extraction branch (construction of the
pydantic record from these well-typed values always succeeds, so the
`except` of lines 159-165 is not reached from here). -/
def heuristicExtract (output : String) : Except PyExn ReceiptData :=
  match pyAmount (searchAmount output.data) with
  | Except.error e => Except.error e
  | Except.ok a => Except.ok (buildRecord a output.data)

deriving instance DecidableEq for Except

/-- JSON values as produced by `json.loads` (numbers are merged into one
exact-rational constructor; the Python extension literals `NaN`, `Infinity`
and `-Infinity`, which `json.loads` accepts, get their own constructors). -/
inductive Json where
  | null
  | bool (b : Bool)
  | num (q : ℚ)
  | str (s : String)
  | arr (elems : List Json)
  | obj (members : List (String × Json))
  | nan
  | inf
  | ninf

/-- JSON whitespace accepted by `json.loads` between tokens. -/
def jsonWs (c : Char) : Bool := c == ' ' || c == '\t' || c == '\n' || c == '\r'

/-- Skip JSON whitespace. -/
def skipWs (l : List Char) : List Char := l.dropWhile jsonWs

/-- Value of a hexadecimal digit. -/
def hexVal (c : Char) : Option Nat :=
  if c.isDigit then some (c.toNat - 48)
  else if 'a' ≤ c && c ≤ 'f' then some (c.toNat - 87)
  else if 'A' ≤ c && c ≤ 'F' then some (c.toNat - 55)
  else none

/-- One escape character of a JSON string. -/
def escChar (e : Char) : Option Char :=
  if e == '"' then some '"'
  else if e == '\\' then some '\\'
  else if e == '/' then some '/'
  else if e == 'b' then some '\x08'
  else if e == 'f' then some '\x0c'
  else if e == 'n' then some '\n'
  else if e == 'r' then some '\r'
  else if e == 't' then some '\t'
  else none

/-- Body of a JSON string after the opening quote, fuel-bounded.  Control
characters are rejected, escapes are decoded; `\uXXXX` is decoded to the
scalar value directly (surrogate-pair combination is outside the model, no
theorem depends on it). -/
def parseStrBody : Nat → List Char → Option (List Char × List Char)
  | 0, _ => none
  | _, [] => none
  | fuel + 1, c :: t =>
    if c == '"' then some ([], t)
    else if c == '\\' then
      match t with
      | [] => none
      | e :: t2 =>
        if e == 'u' then
          match t2 with
          | h1 :: h2 :: h3 :: h4 :: t3 =>
            match hexVal h1, hexVal h2, hexVal h3, hexVal h4 with
            | some a, some b, some c2, some d =>
              (parseStrBody fuel t3).map fun p =>
                (Char.ofNat (((a * 16 + b) * 16 + c2) * 16 + d) :: p.1, p.2)
            | _, _, _, _ => none
          | _ => none
        else
          match escChar e with
          | some ch => (parseStrBody fuel t2).map fun p => (ch :: p.1, p.2)
          | none => none
    else if c.toNat < 32 then none
    else (parseStrBody fuel t).map fun p => (c :: p.1, p.2)

/-- Fraction part of a JSON number (empty, or `.` followed by digits),
returned as the fraction digits value and their count. -/
def parseFrac (l : List Char) : Option ((ℕ × ℕ) × List Char) :=
  match l with
  | '.' :: t =>
    let fp := t.takeWhile Char.isDigit
    if fp.isEmpty then none
    else some ((digitsVal fp, fp.length), t.drop fp.length)
  | _ => some ((0, 0), l)

/-- Digits of an exponent with optional sign. -/
def parseExpTail (l : List Char) : Option ((Bool × ℕ) × List Char) :=
  let p := match l with
    | '+' :: t => (false, t)
    | '-' :: t => (true, t)
    | _ => (false, l)
  let ds := p.2.takeWhile Char.isDigit
  if ds.isEmpty then none
  else some ((p.1, digitsVal ds), p.2.drop ds.length)

/-- Exponent part of a JSON number (empty, or `e`/`E` with optional sign and
digits), as a signed decimal exponent. -/
def parseExpPart (l : List Char) : Option ((Bool × ℕ) × List Char) :=
  match l with
  | 'e' :: t => parseExpTail t
  | 'E' :: t => parseExpTail t
  | _ => some ((false, 0), l)

/-- Unsigned JSON number: integer part without leading zeros, optional
fraction, optional exponent; its exact value is assembled as one rational
from the digit values (`mkRat` normalizes the fraction). -/
def parseNumCore (l : List Char) : Option (ℚ × List Char) :=
  let ip := l.takeWhile Char.isDigit
  if ip.isEmpty then none
  else if ip.length > 1 && ip.head? == some '0' then none
  else
    match parseFrac (l.drop ip.length) with
    | none => none
    | some ((f, k), l2) =>
      match parseExpPart l2 with
      | none => none
      | some ((eneg, e), l3) =>
        let mant := digitsVal ip * 10 ^ k + f
        some ((if eneg then mkRat mant (10 ^ k * 10 ^ e) else mkRat (mant * 10 ^ e) (10 ^ k)), l3)

/-- JSON number with optional leading minus. -/
def parseNum (l : List Char) : Option (ℚ × List Char) :=
  match l with
  | '-' :: t => (parseNumCore t).map fun p => (Rat.neg p.1, p.2)
  | _ => parseNumCore l

mutual

/-- One JSON value, after skipping leading whitespace; fuel-bounded
recursive descent modelling `json.loads` (including the non-standard
`NaN` / `Infinity` / `-Infinity` literals Python accepts). -/
def parseVal : Nat → List Char → Option (Json × List Char)
  | 0, _ => none
  | fuel + 1, l =>
    match skipWs l with
    | '{' :: t =>
      match skipWs t with
      | '}' :: r => some (Json.obj [], r)
      | l2 => (parseMembers fuel l2).map fun p => (Json.obj p.1, p.2)
    | '[' :: t =>
      match skipWs t with
      | ']' :: r => some (Json.arr [], r)
      | l2 => (parseElems fuel l2).map fun p => (Json.arr p.1, p.2)
    | '"' :: t => (parseStrBody (t.length + 1) t).map fun p => (Json.str p.1.asString, p.2)
    | 't' :: 'r' :: 'u' :: 'e' :: t => some (Json.bool true, t)
    | 'f' :: 'a' :: 'l' :: 's' :: 'e' :: t => some (Json.bool false, t)
    | 'n' :: 'u' :: 'l' :: 'l' :: t => some (Json.null, t)
    | 'N' :: 'a' :: 'N' :: t => some (Json.nan, t)
    | 'I' :: 'n' :: 'f' :: 'i' :: 'n' :: 'i' :: 't' :: 'y' :: t => some (Json.inf, t)
    | '-' :: 'I' :: 'n' :: 'f' :: 'i' :: 'n' :: 'i' :: 't' :: 'y' :: t => some (Json.ninf, t)
    | l2 => (parseNum l2).map fun p => (Json.num p.1, p.2)

/-- Nonempty member list of a JSON object, up to and including the closing
brace. -/
def parseMembers : Nat → List Char → Option (List (String × Json) × List Char)
  | 0, _ => none
  | fuel + 1, l =>
    match l with
    | '"' :: t =>
      match parseStrBody (t.length + 1) t with
      | none => none
      | some (k, r1) =>
        match skipWs r1 with
        | ':' :: r2 =>
          match parseVal fuel r2 with
          | none => none
          | some (v, r3) =>
            match skipWs r3 with
            | ',' :: r4 =>
              match parseMembers fuel (skipWs r4) with
              | some (kvs, r5) => some ((k.asString, v) :: kvs, r5)
              | none => none
            | '}' :: r4 => some ([(k.asString, v)], r4)
            | _ => none
        | _ => none
    | _ => none

/-- Nonempty element list of a JSON array, up to and including the closing
bracket. -/
def parseElems : Nat → List Char → Option (List Json × List Char)
  | 0, _ => none
  | fuel + 1, l =>
    match parseVal fuel l with
    | none => none
    | some (v, r1) =>
      match skipWs r1 with
      | ',' :: r2 =>
        match parseElems fuel (skipWs r2) with
        | some (vs, r3) => some (v :: vs, r3)
        | none => none
      | ']' :: r2 => some ([v], r2)
      | _ => none

end

/-- `json.loads` (line 96): parse the whole document, requiring only
whitespace after the value; `none` models `json.JSONDecodeError`.  The fuel
is ample: every recursive call of the parser either consumes input or
descends into a construct that does. -/
def jsonLoads (s : String) : Option Json :=
  match parseVal (2 * s.data.length + 8) s.data with
  | some (j, r) => if (skipWs r).isEmpty then some j else none
  | none => none

/-- Last binding of a key in a parsed object, as in a Python dict built by
`json.loads` (later duplicate keys win). -/
def lookupJson (k : String) (kvs : List (String × Json)) : Option Json :=
  (kvs.reverse.find? fun p => p.1 == k).map fun p => p.2

/-- Sequencing of fallible construction steps (an error propagates, as the
pydantic `ValidationError` does). -/
def exBind {α β : Type} (x : Except PyExn α) (f : α → Except PyExn β) : Except PyExn β :=
  match x with
  | Except.ok v => f v
  | Except.error e => Except.error e

/-- Modelled from the spec: pydantic construction of the required `amount`
field from a mapping — "field-wise construct the record directly from
matching keys; fails with a construction error if required fields are absent
or malformed" (pydantic itself is an external library; its lax coercions of
numeric strings are outside the model, no theorem depends on them). -/
def reqAmount (kvs : List (String × Json)) : Except PyExn ℚ :=
  match lookupJson "amount" kvs with
  | some (Json.num q) => Except.ok q
  | none => Except.error (PyExn.validationError "amount: field required")
  | some _ => Except.error (PyExn.validationError "amount: malformed value")

/-- Modelled from the spec: pydantic construction of the required `category`
field from a mapping (see `reqAmount`). -/
def reqCategory (kvs : List (String × Json)) : Except PyExn String :=
  match lookupJson "category" kvs with
  | some (Json.str s) => Except.ok s
  | none => Except.error (PyExn.validationError "category: field required")
  | some _ => Except.error (PyExn.validationError "category: malformed value")

/-- Modelled from the spec: pydantic construction of an `Optional[str]`
field from a mapping — absent or null becomes `None`, a string is kept,
anything else is a construction error (see `reqAmount`). -/
def optStrField (kvs : List (String × Json)) (k : String) : Except PyExn (Option String) :=
  match lookupJson k kvs with
  | none => Except.ok none
  | some Json.null => Except.ok none
  | some (Json.str v) => Except.ok (some v)
  | some _ => Except.error (PyExn.validationError (k ++ ": malformed value"))

/-- `ReceiptData(**data_dict)` (lines 97 and 168): field-wise construction
from a parsed JSON value; a non-object value models the `TypeError` Python
raises for `**` over a non-mapping. -/
def receiptFromJson : Json → Except PyExn ReceiptData
  | Json.obj kvs =>
    exBind (reqAmount kvs) fun a =>
    exBind (reqCategory kvs) fun c =>
    exBind (optStrField kvs "merchant") fun m =>
    exBind (optStrField kvs "date") fun d =>
    exBind (optStrField kvs "description") fun de =>
    exBind (optStrField kvs "audit_reasoning") fun ar =>
    Except.ok ⟨a, c, m, d, de, ar⟩
  | _ => Except.error (PyExn.typeError "process_receipt argument after ** must be a mapping")

/-- Python `s[:n]` on a string. -/
def pyTruncate (n : Nat) (s : String) : String := (s.data.take n).asString

/-- The possible shapes of `result.output` dispatched on in lines 90-173:
a `ReceiptData` instance, a string, a dict (modelled as parsed JSON
members), or any other value carried as its `type(...)` and `repr(...)`
strings. -/
inductive AgentOutput where
  | structured (r : ReceiptData)
  | text (s : String)
  | dict (kvs : List (String × Json))
  | other (typeName : String) (reprStr : String)

/-- Lines 90-173: the normalization dispatch of `process_receipt` on the
model output (the file-existence check and the model call of lines 44-87
precede this and are outside the normalizer). -/
def processOutput : AgentOutput → Except PyExn ReceiptData
  | AgentOutput.structured r => Except.ok r
  | AgentOutput.text s =>
    match jsonLoads s with
    | some j => receiptFromJson j
    | none => heuristicExtract s
  | AgentOutput.dict kvs => receiptFromJson (Json.obj kvs)
  | AgentOutput.other ty rep =>
    Except.error (PyExn.typeError
      ("Unexpected result type from agent: " ++ ty ++
        ". Expected ReceiptData, str, or dict. Got: " ++ pyTruncate 200 rep))

/-- Python `str(x)` of an optional string, as interpolated by an f-string
(`None` prints as `None`). -/
def optPyStr : Option String → String
  | none => "None"
  | some s => s

/-- Lines 160-165: the diagnostic built when record construction fails.  The
f-string slices `description[:100]`, so a `None` description makes the
message construction itself raise `TypeError` (`NoneType` object is not
subscriptable) instead of producing the diagnostic `ValueError`.  The
float formatting of the amount is taken as an already-formatted string. -/
def buildRecoveryMsg (amountStr category : String) (merchant date description : Option String)
    (err raw : String) : Except PyExn String :=
  match description with
  | none => Except.error (PyExn.typeError "NoneType object is not subscriptable")
  | some d =>
    Except.error (PyExn.valueError
      ("Failed to create ReceiptData from parsed text. Amount: " ++ amountStr ++
        ", Category: " ++ category ++ ", Merchant: " ++ optPyStr merchant ++
        ", Date: " ++ optPyStr date ++ ", Description: " ++ pyTruncate 100 d ++
        ". Error: " ++ err ++ ". Original response: " ++ pyTruncate 500 raw))

/-- A cell of the CSV row written by `save_to_csv` (`src/app.py` lines
52-59): a number, a string, or the empty cell a `None` field produces. -/
inductive CsvCell where
  | num (q : ℚ)
  | str (s : String)
  | null
deriving Repr, DecidableEq

/-- An optional string field as a CSV cell. -/
def optCell : Option String → CsvCell
  | none => CsvCell.null
  | some s => CsvCell.str s

/-- `save_to_csv` (`src/app.py` lines 52-59): `data.model_dump()` plus the
`processed_at` timestamp, as the named row appended to the file. -/
def save_to_csv (data : ReceiptData) (processed_at : String) : List (String × CsvCell) :=
  [("amount", CsvCell.num data.amount),
   ("category", CsvCell.str data.category),
   ("merchant", optCell data.merchant),
   ("date", optCell data.date),
   ("description", optCell data.description),
   ("audit_reasoning", optCell data.audit_reasoning),
   ("processed_at", CsvCell.str processed_at)]

/-- Cell of a named column in a row. -/
def lookupCell (k : String) (row : List (String × CsvCell)) : Option CsvCell :=
  (row.find? fun p => p.1 == k).map fun p => p.2

/-- A key is well-typed for an `Optional[str]` field when it is absent,
null, or a string. -/
def wellTypedOptKey (kvs : List (String × Json)) (k : String) : Bool :=
  match lookupJson k kvs with
  | none => true
  | some Json.null => true
  | some (Json.str _) => true
  | some _ => false

/-- The value an `Optional[str]` field receives from a well-typed key. -/
def optStrOfJson : Option Json → Option String
  | some (Json.str v) => some v
  | _ => none

/-! ## Theorems about the claims -/

/-- If a key is well-typed for an `Optional[str]` field, its construction
succeeds and yields exactly the value encoded under that key. -/
theorem optStrField_ok (kvs : List (String × Json)) (k : String)
    (h : wellTypedOptKey kvs k = true) :
    optStrField kvs k = Except.ok (optStrOfJson (lookupJson k kvs)) := by
  unfold wellTypedOptKey at h
  unfold optStrField
  cases hl : lookupJson k kvs with
  | none => rfl
  | some j =>
    rw [hl] at h
    cases j <;> first | rfl | exact Bool.noConfusion h

/-- Claim C1, counterexample: the input consisting of the line
`Category: Office Supplies` followed by a newline and `Date: 2024-01-05`,
with no dollar amount, satisfies the hypotheses of the claim, but the
extracted date is `2024`, not `2024-01-05`: the `[^\n\-]+` capture of the
date pattern stops at the first hyphen. -/
theorem c1_counterexample :
    (processOutput (AgentOutput.text "Category: Office Supplies\nDate: 2024-01-05")).toOption.map
        ReceiptData.date ≠ some (some "2024-01-05") := by decide

/-- Claim C1, amended: for the input `Category: Office Supplies\nDate:
2024-01-05` (no dollar amount), extraction yields category
`Office Supplies`, date `2024` (the capture stops at the first hyphen), and
amount `0.0`; the reasoning falls back to the whole trimmed text. -/
theorem c1_amended :
    processOutput (AgentOutput.text "Category: Office Supplies\nDate: 2024-01-05") =
      Except.ok ⟨0, "Office Supplies", none, some "2024", none,
        some "Category: Office Supplies\nDate: 2024-01-05"⟩ := by decide

/-- Claim C2, counterexample: on the input `$,` — not valid JSON, so the
heuristic branch runs — the currency regex matches with the digit-free token
`,`, and `float(',')` with commas removed is `float('')`, which raises an
uncaught `ValueError`: an exception outside the three specified error
kinds escapes the heuristic extraction. -/
theorem c2_counterexample :
    jsonLoads "$," = none ∧
    searchAmount ("$,".data) = some [','] ∧
    processOutput (AgentOutput.text "$,") =
      Except.error (PyExn.valueError "could not convert string to float: ") := by
  exact ⟨rfl, rfl, rfl⟩

/-- Claim C2, amended: whenever the currency regex either does not match or
matches a token that still contains a digit after comma removal, the float
conversion succeeds and the heuristic extraction returns a record (the
failing case is exactly a matched token made only of commas and an optional
dot, where `float` raises a `ValueError` that no specified error kind
covers). -/
theorem c2_amended (s : String)
    (h : ∀ tok, searchAmount s.data = some tok →
      (tok.filter (fun c => c != ',')).any Char.isDigit = true) :
    ∃ r, heuristicExtract s = Except.ok r := by
  unfold heuristicExtract
  cases hm : searchAmount s.data with
  | none => exact ⟨buildRecord 0 s.data, by simp [pyAmount]⟩
  | some tok =>
    have hd := h tok hm
    refine ⟨buildRecord (ratOfClean (tok.filter (fun c => c != ','))) s.data, ?_⟩
    simp [pyAmount, pyFloatConv, hd]

/-- Claim C2, witness: the amended statement applied to `Total: $12.50`. -/
theorem c2_witness : ∃ r, heuristicExtract "Total: $12.50" = Except.ok r := by
  refine c2_amended "Total: $12.50" ?_
  intro tok h
  have h2 : some ['1', '2', '.', '5', '0'] = some tok := h
  cases h2
  decide

/-- Claim C3: the recovery diagnostic of lines 160-165 slices
`description[:100]` inside the f-string, so with a `None` description the
code raises `TypeError` instead of the diagnostic `ValueError` the spec
promises for that case. -/
theorem c3_none_description_bug :
    buildRecoveryMsg "0.0" "Unknown" none none none "validation error" "raw model text" =
      Except.error (PyExn.typeError "NoneType object is not subscriptable") := rfl

/-- Claim C4, counterexample: in `Description: foo\nbar-baz` no line begins
with a hyphen, yet the captured description is `foo\nbar` (collapsed to
`foo bar`), not `foo bar-baz`: an interior hyphen of a continuation line
terminates the capture. -/
theorem c4_counterexample :
    (processOutput (AgentOutput.text "Description: foo\nbar-baz")).toOption.map
        ReceiptData.description = some (some "foo bar") ∧
    (some (some "foo bar") : Option (Option String)) ≠ some (some "foo bar-baz") := by
  exact ⟨by decide, by decide⟩

/-- Claim C4, amended: the capture takes the rest of the label's line
(hyphens allowed there) and, when the next line does not begin with a
hyphen, extends until the first hyphen anywhere in the following text;
newline runs then collapse to single spaces; with no `Description` label the
description is null. -/
theorem c4_amended :
    processOutput (AgentOutput.text "Description: alpha-beta\ngamma delta-epsilon\nzeta") =
      Except.ok ⟨0, "Unknown", none, none, some "alpha-beta gamma delta",
        some "Description: alpha-beta\ngamma delta-epsilon\nzeta"⟩ ∧
    descrField ("plain text".data) = none := by
  exact ⟨by decide, by decide⟩

/-- Claim C5, counterexample: the input `$5 Amount: $1,234.56` contains
`Amount: $1,234.56`, but `re.search` returns the leftmost currency match, so
the amount is `5.0`, not `1234.56`. -/
theorem c5_counterexample :
    (processOutput (AgentOutput.text "$5 Amount: $1,234.56")).toOption.map
        ReceiptData.amount = some 5 ∧
    (processOutput (AgentOutput.text "$5 Amount: $1,234.56")).toOption.map
        ReceiptData.amount ≠ some (mkRat 123456 100) := by
  exact ⟨by decide, by decide⟩

/-- Claim C5, amended: for the input `Amount: $1,234.56` (where that token
is the leftmost currency match), extraction yields amount `1234.56` — the
dollar-prefixed token with separators stripped, parsed as a number. -/
theorem c5_amended :
    processOutput (AgentOutput.text "Amount: $1,234.56") =
      Except.ok ⟨mkRat 123456 100, "Unknown", none, none, none,
        some "Amount: $1,234.56"⟩ := by decide

/-- Claim C6, counterexample: `**hello**` matches no label and has no dollar
amount, yet `audit_reasoning` is `hello`, not the full trimmed input
`**hello**`: the post-processing of lines 144-147 strips the leading and
trailing bold markers from the fallback text. -/
theorem c6_counterexample :
    (processOutput (AgentOutput.text "**hello**")).toOption.map
        ReceiptData.audit_reasoning ≠ some (some "**hello**") := by decide

/-- Claim C6, amended: when no label and no dollar amount match,
`audit_reasoning` is the full trimmed input further post-processed (leading
and trailing `**` stripped, runs of three or more newlines collapsed to two,
re-trimmed), the category is `Unknown`, the amount is `0.0`, and merchant,
date and description are null. -/
theorem c6_amended (s : String)
    (hA : searchAmount s.data = none)
    (hC : searchLabel ["Category"] false s.data = none)
    (hM : searchLabel ["Merchant"] false s.data = none)
    (hD : searchLabel ["Date"] false s.data = none)
    (hDe : searchLabel ["Description"] true s.data = none)
    (hR : searchLabel reasonLabels true s.data = none) :
    heuristicExtract s = Except.ok ⟨0, "Unknown", none, none, none,
      some (postProcessReasoning (pyStrip s.data)).asString⟩ := by
  unfold heuristicExtract
  rw [hA]
  unfold buildRecord categoryField optField descrField reasonField
  rw [hC, hM, hD, hDe, hR]
  simp [pyAmount]
  decide

/-- Claim C6, witness: the amended statement applied to `hello receipt`. -/
theorem c6_witness :
    heuristicExtract "hello receipt" = Except.ok ⟨0, "Unknown", none, none, none,
      some (postProcessReasoning (pyStrip ("hello receipt".data))).asString⟩ :=
  c6_amended "hello receipt" rfl rfl rfl rfl rfl rfl

/-- Claim C7: a string that parses as a JSON object with a numeric `amount`,
a string `category`, and well-typed optional fields round-trips: the
normalization returns exactly the encoded record, through the JSON branch
and not the heuristic extraction. -/
theorem c7_roundtrip (s : String) (kvs : List (String × Json)) (a : ℚ) (c : String)
    (hj : jsonLoads s = some (Json.obj kvs))
    (ha : lookupJson "amount" kvs = some (Json.num a))
    (hc : lookupJson "category" kvs = some (Json.str c))
    (hm : wellTypedOptKey kvs "merchant" = true)
    (hd : wellTypedOptKey kvs "date" = true)
    (hde : wellTypedOptKey kvs "description" = true)
    (har : wellTypedOptKey kvs "audit_reasoning" = true) :
    processOutput (AgentOutput.text s) =
      Except.ok ⟨a, c, optStrOfJson (lookupJson "merchant" kvs),
        optStrOfJson (lookupJson "date" kvs),
        optStrOfJson (lookupJson "description" kvs),
        optStrOfJson (lookupJson "audit_reasoning" kvs)⟩ := by
  have h1 : reqAmount kvs = Except.ok a := by unfold reqAmount; rw [ha]
  have h2 : reqCategory kvs = Except.ok c := by unfold reqCategory; rw [hc]
  have h3 := optStrField_ok kvs "merchant" hm
  have h4 := optStrField_ok kvs "date" hd
  have h5 := optStrField_ok kvs "description" hde
  have h6 := optStrField_ok kvs "audit_reasoning" har
  simp only [processOutput]
  rw [hj]
  simp only [receiptFromJson, h1, h2, h3, h4, h5, h6, exBind]

/-- Claim C7, witness: the round-trip applied to the JSON text of a record
with `amount` 7 and `category` `Travel`. -/
theorem c7_witness :
    processOutput (AgentOutput.text "\x7b\"amount\": 7, \"category\": \"Travel\"\x7d") =
      Except.ok ⟨7, "Travel", none, none, none, none⟩ :=
  c7_roundtrip "\x7b\"amount\": 7, \"category\": \"Travel\"\x7d"
    [("amount", Json.num 7), ("category", Json.str "Travel")] 7 "Travel"
    rfl rfl rfl rfl rfl rfl rfl

/-- Claim C8: a model output that is neither a `ReceiptData` instance, nor a
string, nor a dict fails with the unexpected-shape `TypeError` whose message
carries the value's runtime type and its representation truncated to 200
characters. -/
theorem c8_unexpected_shape (t r : String) :
    processOutput (AgentOutput.other t r) =
      Except.error (PyExn.typeError
        ("Unexpected result type from agent: " ++ t ++
          ". Expected ReceiptData, str, or dict. Got: " ++ pyTruncate 200 r)) ∧
    (pyTruncate 200 r).length ≤ 200 := by
  refine ⟨rfl, ?_⟩
  show (r.data.take 200).length ≤ 200
  rw [List.length_take]
  exact Nat.min_le_left _ _

/-- Claim C9: every persisted row has a non-null `amount` cell and a
non-null `category` cell — they always hold the record's required numeric
amount and string category, whatever the record and timestamp. -/
theorem c9_persisted_required (d : ReceiptData) (ts : String) :
    lookupCell "amount" (save_to_csv d ts) = some (CsvCell.num d.amount) ∧
    lookupCell "category" (save_to_csv d ts) = some (CsvCell.str d.category) := by
  exact ⟨rfl, rfl⟩

/-- Claim C10, counterexample: in `**Reasoning:** *` the reasoning label
matches and its captured value strips to the empty string, and the fallback
to the raw text applies — but post-processing then strips the leading bold
marker, so `audit_reasoning` is `Reasoning:** *`, not the entire trimmed
input `**Reasoning:** *`. -/
theorem c10_counterexample :
    (processOutput (AgentOutput.text "**Reasoning:** *")).toOption.map
        ReceiptData.audit_reasoning = some (some "Reasoning:** *") ∧
    (some (some "Reasoning:** *") : Option (Option String)) ≠ some (some "**Reasoning:** *") := by
  exact ⟨by decide, by decide⟩

/-- Claim C10, amended: when a reasoning label matches but the captured
value strips to the empty string, the full-text fallback still applies:
`audit_reasoning` becomes the whole trimmed raw text, further post-processed
by lines 144-147 (leading/trailing `**` stripped, long newline runs
collapsed, re-trimmed), rather than the empty string. -/
theorem c10_amended (a : ℚ) (s : String) (g : List Char)
    (h1 : searchLabel reasonLabels true s.data = some g)
    (h2 : cleanLabelVal g = []) :
    (buildRecord a s.data).audit_reasoning =
      some (postProcessReasoning (pyStrip s.data)).asString := by
  unfold buildRecord reasonField
  rw [h1]
  simp [h2]

/-- Claim C10, witness: the amended statement applied to `Reasoning: *`,
whose captured group `*` strips to the empty string. -/
theorem c10_witness :
    (buildRecord 0 ("Reasoning: *".data)).audit_reasoning =
      some (postProcessReasoning (pyStrip ("Reasoning: *".data))).asString :=
  c10_amended 0 "Reasoning: *" ['*'] rfl rfl
